import Mathlib

/-!
Verification development for the polars-timeseries-utils repository.

The repository's single-column transformers (imputers, scalers,
lag/difference transformers) and the sequential Pipeline are shallowly
embedded over lists of optional rational values.  A column is a named,
typed list of optional values (a missing entry is modelled as none).
Numeric values are modelled as rationals; dtypes are restricted to the
two numeric polars dtypes the claims exercise (Int64 and Float64).
Fallible methods return Except Err.
-/

namespace PolarsTS

/-- Numeric cell values. -/
abbrev Val := ℚ

/-- The polars dtypes relevant to the embedded transformers. -/
inductive DType where
  | int64
  | float64
deriving DecidableEq, Repr

/-- Errors raised by the embedded code, tagged by Python exception class. -/
inductive Err where
  | valueError (msg : String)
  | runtimeError (msg : String)
  | indexError
deriving DecidableEq, Repr

/-- Truncation toward zero, as polars casts Float64 to Int64. -/
def truncQ (v : Val) : Val :=
  if 0 ≤ v then (⌊v⌋ : ℚ) else (⌈v⌉ : ℚ)

/-- Casting a value to a dtype (polars .cast). Float64 keeps the value,
Int64 truncates toward zero. -/
def castVal (d : DType) (v : Val) : Val :=
  match d with
  | .float64 => v
  | .int64 => truncQ v

/-- A polars Series: name, dtype and cell values (none is a null). -/
structure Col where
  name : String
  dtype : DType
  values : List (Option Val)
deriving DecidableEq, Repr

/-- Number of null entries of a value list (Series.null_count). -/
def nullCount (xs : List (Option Val)) : Nat :=
  (xs.filter Option.isNone).length

/-- Series.mean: mean of the non-null entries, none if all entries are null. -/
def colMean (xs : List (Option Val)) : Option Val :=
  let vs := xs.filterMap id
  if vs.isEmpty then none else some (vs.sum / vs.length)

/-- Series.min: least non-null entry, none if all entries are null. -/
def colMin (xs : List (Option Val)) : Option Val :=
  match xs.filterMap id with
  | [] => none
  | v :: vs => some (vs.foldl min v)

/-- Series.max: greatest non-null entry, none if all entries are null. -/
def colMax (xs : List (Option Val)) : Option Val :=
  match xs.filterMap id with
  | [] => none
  | v :: vs => some (vs.foldl max v)

/-- Series.median: median of the non-null entries (mean of the two middle
entries for an even count), none if all entries are null. -/
def colMedian (xs : List (Option Val)) : Option Val :=
  let vs := (xs.filterMap id).mergeSort (· ≤ ·)
  match vs.length with
  | 0 => none
  | n + 1 =>
    if (n + 1) % 2 = 1 then vs[(n + 1) / 2]?
    else do
      let a ← vs[(n + 1) / 2 - 1]?
      let b ← vs[(n + 1) / 2]?
      pure ((a + b) / 2)

/-- fill_null(value=v): replace every null by v. -/
def fillNullConst (v : Val) (xs : List (Option Val)) : List (Option Val) :=
  xs.map (fun o => some (o.getD v))

/-- fill_null(strategy="forward") : propagate the last seen non-null value. -/
def fillForwardAux (carry : Option Val) : List (Option Val) → List (Option Val)
  | [] => []
  | o :: rest =>
    match o with
    | some v => some v :: fillForwardAux (some v) rest
    | none => carry :: fillForwardAux carry rest

def fillForward (xs : List (Option Val)) : List (Option Val) :=
  fillForwardAux none xs

/-- fill_null(strategy="backward"). -/
def fillBackward (xs : List (Option Val)) : List (Option Val) :=
  (fillForwardAux none xs.reverse).reverse

/-- Imputation strategies (types.py `Strategy`, modelled as a closed enum;
the string/categorical arms of ZERO/ONE are unreachable for the numeric
dtypes embedded here). -/
inductive Strategy where
  | forward
  | backward
  | mean
  | median
  | min
  | max
  | zero
  | one
deriving DecidableEq, Repr

/-- imputers.py `Imputer`: constant-value or strategy-based null filling. -/
structure Imputer where
  strategy : Option Strategy
  value : Option Val
  fitted_value : Option Val
deriving DecidableEq, Repr

/-- `Imputer.__init__`: exactly one of value / strategy must be given. -/
def Imputer.init (value : Option Val) (strategy : Option Strategy) :
    Except Err Imputer :=
  if value.isSome ∧ strategy.isSome then
    .error (.valueError "Exactly one parameter must be not None.")
  else if value.isNone ∧ strategy.isNone then
    .error (.valueError "Exactly one parameter must be not None.")
  else
    .ok { strategy := strategy, value := value, fitted_value := none }

/-- `Imputer.fit`: records the column statistic for statistical strategies;
no statistic (and no error) when the column is all null, since polars
mean/median/min/max return None there. -/
def Imputer.fit (im : Imputer) (s : Col) : Except Err Imputer :=
  match im.strategy with
  | none | some .forward | some .backward => .ok im
  | some .median => .ok { im with fitted_value := colMedian s.values }
  | some .mean => .ok { im with fitted_value := colMean s.values }
  | some .min => .ok { im with fitted_value := colMin s.values }
  | some .max => .ok { im with fitted_value := colMax s.values }
  | some .zero => .ok { im with fitted_value := some 0 }
  | some .one => .ok { im with fitted_value := some 1 }

/-- `Imputer.transform`: fill nulls by constant value, directional strategy,
or the fitted statistic; the result is cast back to the input dtype. -/
def Imputer.transform (im : Imputer) (s : Col) : Except Err Col :=
  match im.value with
  | some fv =>
    .ok ⟨s.name, s.dtype, (fillNullConst fv s.values).map (Option.map (castVal s.dtype))⟩
  | none =>
    if im.strategy = some .forward then
      .ok ⟨s.name, s.dtype, (fillForward s.values).map (Option.map (castVal s.dtype))⟩
    else if im.strategy = some .backward then
      .ok ⟨s.name, s.dtype, (fillBackward s.values).map (Option.map (castVal s.dtype))⟩
    else
      match im.fitted_value with
      | none => .error (.valueError "Imputer has not been fit yet.")
      | some fv =>
        .ok ⟨s.name, s.dtype, (fillNullConst fv s.values).map (Option.map (castVal s.dtype))⟩

/-- The 1e-8 stabilizer used by MinMaxScaler's denominator. -/
def eps : Val := 1 / 100000000

/-- column_transformer/scalers.py `MinMaxScaler`: min/max learned at fit
time plus the is_fitted flag the base-class constructor initializes to
False. -/
structure MinMaxScaler where
  min : Option Val
  max : Option Val
  is_fitted : Bool
deriving DecidableEq, Repr

/-- `MinMaxScaler.__init__`: no bounds yet, unfitted. -/
def MinMaxScaler.init : MinMaxScaler :=
  { min := none, max := none, is_fitted := false }

/-- `MinMaxScaler.fit`: stores the column min and max (none on an all-null
column, since polars Series.min/max return None there), sets is_fitted to
whether both bounds are present, and raises a RuntimeError when they are
not. -/
def MinMaxScaler.fit (sc : MinMaxScaler) (s : Col) : Except Err MinMaxScaler :=
  let mn := colMin s.values
  let mx := colMax s.values
  let fitted := mn.isSome && mx.isSome
  if fitted = false then
    .error (.runtimeError
      "MinMaxScaler could not be fitted due to None min or max values.")
  else
    .ok { sc with min := mn, max := mx, is_fitted := fitted }

/-- `MinMaxScaler.transform`: raises the not-fitted ValueError when
is_fitted is false; otherwise null entries stay null and the rest are
mapped through (v - min) / (max - min + 1e-8) and cast back to the input
dtype. The catch-all arm (is_fitted true with a missing bound) is
unreachable through init and fit, which either record both bounds or
raise. -/
def MinMaxScaler.transform (sc : MinMaxScaler) (s : Col) : Except Err Col :=
  if sc.is_fitted = false then
    .error (.valueError "MinMaxScaler has not been fitted yet.")
  else
    match sc.min, sc.max with
    | some mn, some mx =>
      .ok ⟨s.name, s.dtype,
        s.values.map (fun o => o.map (fun v => castVal s.dtype ((v - mn) / (mx - mn + eps))))⟩
    | _, _ => .error (.valueError "MinMaxScaler has not been fitted yet.")

/-- Series.shift(n): length-preserving shift filling the vacated positions
with nulls; positive n shifts toward later indices. -/
def shiftList (n : Int) (xs : List (Option Val)) : List (Option Val) :=
  if 0 ≤ n then (List.replicate n.toNat none ++ xs).take xs.length
  else ((xs.drop (-n).toNat) ++ List.replicate (-n).toNat none).take xs.length

/-- The dtype of fill_null(value) with a Python float fill value: polars
resolves the supertype of the column dtype and Float64. -/
def promoteFloat : DType → DType
  | .int64 => .float64
  | .float64 => .float64

/-- transformers.py `LagTransformer`. Constructed already fitted. -/
structure LagTransformer where
  lags : List Int
  fill_value : Option Val
  is_fitted : Bool
deriving DecidableEq, Repr

/-- `LagTransformer.__init__`: stores the lags and sets is_fitted to True
(overwriting the False the base-class constructor installs). -/
def LagTransformer.init (lags : List Int) (fill_value : Option Val) : LagTransformer :=
  { lags := lags, fill_value := fill_value, is_fitted := true }

/-- `LagTransformer.fit`: no-op apart from setting is_fitted. -/
def LagTransformer.fit (lt : LagTransformer) (_ : Col) : Except Err LagTransformer :=
  .ok { lt with is_fitted := true }

/-- `LagTransformer.transform`: shift by the first lag; `self.lags[0]` on an
empty lag list is an IndexError; a non-null fill_value promotes an integer
column to Float64 (fill_null supertype resolution with a float literal). -/
def LagTransformer.transform (lt : LagTransformer) (s : Col) : Except Err Col :=
  if lt.is_fitted = false then
    .error (.valueError "LagTransformer has not been fitted yet.")
  else
    match lt.lags with
    | [] => .error .indexError
    | lag :: _ =>
      let shifted := shiftList lag s.values
      match lt.fill_value with
      | none => .ok ⟨s.name, s.dtype, shifted⟩
      | some fv => .ok ⟨s.name, promoteFloat s.dtype, fillNullConst fv shifted⟩

/-- Series.diff(n): x[i] - x[i-n], null where either operand is null. -/
def diffList (p : Nat) (xs : List (Option Val)) : List (Option Val) :=
  (xs.zip (shiftList p xs)).map (fun ab =>
    match ab.1, ab.2 with
    | some a, some b => some (a - b)
    | _, _ => none)

/-- diffList iterated `order` times. -/
def diffN : Nat → Nat → List (Option Val) → List (Option Val)
  | 0, _, xs => xs
  | o + 1, p, xs => diffN o p (diffList p xs)

/-- The heads stored by `DiffTransformer.fit` before each differencing pass. -/
def diffInits : Nat → Nat → List (Option Val) → List (List (Option Val))
  | 0, _, _ => []
  | o + 1, p, xs => xs.take p :: diffInits o p (diffList p xs)

/-- transformers.py `DiffTransformer`. -/
structure DiffTransformer where
  order : Nat
  periods : Nat
  initial_values : List (List (Option Val))
  is_fitted : Bool
deriving DecidableEq, Repr

/-- `DiffTransformer.__init__`: order and periods must be at least 1;
constructed unfitted. -/
def DiffTransformer.init (order : Int) (periods : Int) : Except Err DiffTransformer :=
  if order < 1 then .error (.valueError "Order must be at least 1.")
  else if periods < 1 then .error (.valueError "Periods must be at least 1.")
  else .ok { order := order.toNat, periods := periods.toNat,
             initial_values := [], is_fitted := false }

/-- `DiffTransformer.fit`: stores the first `periods` values before each
differencing pass (for inverse_transform) and marks the transformer fitted. -/
def DiffTransformer.fit (dt : DiffTransformer) (s : Col) : Except Err DiffTransformer :=
  .ok { dt with initial_values := diffInits dt.order dt.periods s.values,
                is_fitted := true }

/-- `DiffTransformer.transform`: `order` differencing passes; raises the
not-fitted ValueError when unfitted. -/
def DiffTransformer.transform (dt : DiffTransformer) (s : Col) : Except Err Col :=
  if dt.is_fitted = false then
    .error (.valueError "DiffTransformer has not been fitted yet.")
  else
    .ok ⟨s.name, s.dtype, diffN dt.order dt.periods s.values⟩

/-- Rolling statistic kinds (types.py `RollingStrategy`). -/
inductive RollingStrategy where
  | min
  | max
  | mean
  | median
deriving DecidableEq, Repr

/-- The window of source indices feeding output index i: the w trailing
indices ending at i, or (with center) a window split around i with the
longer half to the right, clipped to the column bounds. -/
def windowAt (w : Nat) (center : Bool) (n i : Nat) : List Nat :=
  if center then
    (List.range n).filter (fun j => i + (w - 1 - w / 2) ≤ j + (w - 1) ∧ j ≤ i + w / 2)
  else
    (List.range n).filter (fun j => i ≤ j + (w - 1) ∧ j ≤ i)

/-- One statistic of a window's non-null values, none when fewer than
min_samples of them are non-null. -/
def rollingStat (strat : RollingStrategy) (minSamples : Nat)
    (window : List (Option Val)) : Option Val :=
  let vs := window.filterMap id
  if vs.length < minSamples then none
  else
    match strat with
    | .min => colMin window
    | .max => colMax window
    | .mean => colMean window
    | .median => colMedian window

/-- rolling_min / rolling_max / rolling_mean / rolling_median over a value
list. -/
def rollingApply (strat : RollingStrategy) (w : Nat) (minSamples : Nat)
    (center : Bool) (xs : List (Option Val)) : List (Option Val) :=
  (List.range xs.length).map (fun i =>
    rollingStat strat minSamples ((windowAt w center xs.length i).filterMap (fun j => xs[j]?)))

/-- Expr.interpolate("linear"): nulls strictly between two non-null entries
are filled linearly; leading and trailing nulls stay null. -/
def prevSomeIdx (xs : List (Option Val)) (k : Nat) : Option Nat :=
  ((List.range k).filter (fun j => (xs[j]?.bind id).isSome)).getLast?

def nextSomeIdx (xs : List (Option Val)) (k : Nat) : Option Nat :=
  ((List.range xs.length).filter (fun j => k < j ∧ (xs[j]?.bind id).isSome)).head?

def interpLinear (xs : List (Option Val)) : List (Option Val) :=
  (List.range xs.length).map (fun k =>
    match xs[k]?.bind id with
    | some v => some v
    | none =>
      match prevSomeIdx xs k, nextSomeIdx xs k with
      | some i, some j => do
        let a ← xs[i]?.bind id
        let b ← xs[j]?.bind id
        pure (a + (b - a) * ((k : ℚ) - i) / ((j : ℚ) - i))
      | _, _ => none)

/-- imputers.py `RollingImputer`. The weights field is stored but never
passed on to the rolling kernel by the source. -/
structure RollingImputer where
  strategy : RollingStrategy
  window_size : Nat
  weights : Option (List Val)
  min_samples : Nat
  center : Bool
deriving DecidableEq, Repr

/-- `RollingImputer.__init__`: `min_samples or window_size` maps a zero
min_samples to window_size. -/
def RollingImputer.init (window_size : Nat) (strategy : RollingStrategy)
    (min_samples : Nat) (weights : Option (List Val)) (center : Bool) :
    RollingImputer :=
  { strategy := strategy, window_size := window_size, weights := weights,
    min_samples := if min_samples = 0 then window_size else min_samples,
    center := center }

/-- `RollingImputer.fit`: no fitting required. -/
def RollingImputer.fit (ri : RollingImputer) (_ : Col) : Except Err RollingImputer :=
  .ok ri

/-- `RollingImputer.transform`: coalesce the column with its rolling
statistic, interpolate remaining nulls linearly, forward-fill, fill the
rest with 0, and cast back to the input dtype. -/
def RollingImputer.transform (ri : RollingImputer) (s : Col) : Col :=
  let stat := rollingApply ri.strategy ri.window_size ri.min_samples ri.center s.values
  let coalesced := (s.values.zip stat).map (fun ab => ab.1.orElse (fun _ => ab.2))
  ⟨s.name, s.dtype,
    (fillNullConst 0 (fillForward (interpLinear coalesced))).map
      (Option.map (castVal s.dtype))⟩

/-- Modelled from the spec: the single-column transformer contract
(BaseColumnTransformer, whose base.py is not in the sources) as the closed
sum of the repository's embedded leaf transformers, each exposing fit and
transform. -/
inductive CT where
  | imputer (im : Imputer)
  | rollingImputer (ri : RollingImputer)
  | minmax (sc : MinMaxScaler)
  | lag (lt : LagTransformer)
  | diffT (dt : DiffTransformer)
deriving DecidableEq, Repr

/-- Dispatch of `fit` through the single-column contract. -/
def CT.fit : CT → Col → Except Err CT
  | .imputer im, s => (im.fit s).map CT.imputer
  | .rollingImputer ri, s => (ri.fit s).map CT.rollingImputer
  | .minmax sc, s => (sc.fit s).map CT.minmax
  | .lag lt, s => (lt.fit s).map CT.lag
  | .diffT dt, s => (dt.fit s).map CT.diffT

/-- Dispatch of `transform` through the single-column contract. -/
def CT.transform : CT → Col → Except Err Col
  | .imputer im, s => im.transform s
  | .rollingImputer ri, s => .ok (ri.transform s)
  | .minmax sc, s => sc.transform s
  | .lag lt, s => lt.transform s
  | .diffT dt, s => dt.transform s

/-- State-passing form of fit_transform: fit, then transform the same
column with the fitted state (the Python methods mutate self in place). -/
def CT.fitTransformS (t : CT) (s : Col) : Except Err (CT × Col) := do
  let t' ← t.fit s
  let out ← t'.transform s
  pure (t', out)

/-- Modelled from the spec: `BaseColumnTransformer.fit_transform` (base.py
is not in the sources), the convenience composition returning the
transformed column. -/
def CT.fitTransform (t : CT) (s : Col) : Except Err Col :=
  (t.fitTransformS s).map Prod.snd

/-- A DataFrame: an ordered list of named columns. -/
abbrev Table := List Col

/-- The concrete column names of a table, in declaration order. -/
def colNames (t : Table) : List String := t.map Col.name

/-- Column lookup by name. -/
def getCol (t : Table) (n : String) : Option Col :=
  t.find? (fun c => c.name = n)

/-- A column selector entry: a literal column name or a dtype predicate
(the `columns` list of ColumnTransformerMetadata holds either). -/
inductive ColSel where
  | byName (n : String)
  | byDtype (d : DType)
deriving DecidableEq, Repr

/-- Modelled from the spec: ColumnSpec / ColumnTransformerMetadata
(multi_column_transformer.py is not in the sources): a named binding of a
column selection to an unfitted transformer template. -/
structure ColumnTransformerMetadata where
  name : String
  columns : List ColSel
  transformer : CT
deriving DecidableEq, Repr

/-- Modelled from the spec: selector resolution against the table schema —
a literal name resolves to itself when present, a dtype selector to all
columns of that dtype in table declaration order. -/
def resolveSel (t : Table) : ColSel → List String
  | .byName n => if (getCol t n).isSome then [n] else []
  | .byDtype d => (t.filter (fun c => c.dtype = d)).map Col.name

def resolveSpec (t : Table) (m : ColumnTransformerMetadata) : List String :=
  m.columns.flatMap (resolveSel t)

/-- Replace the binding for a key, or append it (later specs win). -/
def assignUpsert (l : List (String × CT)) (k : String) (v : CT) :
    List (String × CT) :=
  if l.any (fun p => p.1 = k) then
    l.map (fun p => if p.1 = k then (k, v) else p)
  else l ++ [(k, v)]

/-- Modelled from the spec: MultiColumnTransformer
(multi_column_transformer.py is not in the sources): an ordered spec list,
the column-to-transformer assignment built at fit time, and the fitted
flag. -/
structure MultiColumnTransformer where
  transformers : List ColumnTransformerMetadata
  col_to_transformer : List (String × CT)
  is_fitted : Bool
deriving DecidableEq, Repr

/-- Modelled from the spec and test_init_no_transformers:
`MultiColumnTransformer.__init__` rejects an empty spec list and
constructs the transformer unfitted with an empty assignment. -/
def MultiColumnTransformer.init (ts : List ColumnTransformerMetadata) :
    Except Err MultiColumnTransformer :=
  if ts.isEmpty then
    .error (.valueError "MultiColumnTransformer must have at least one transformer.")
  else
    .ok { transformers := ts, col_to_transformer := [], is_fitted := false }

/-- Modelled from the spec: `MultiColumnTransformer.fit` resolves each spec
in list order, fits an independent clone of the spec's transformer on each
resolved column's data, records the assignment (later specs override) and
marks self fitted; a failing column fit aborts the whole call. -/
def MultiColumnTransformer.buildAssignment (m : MultiColumnTransformer)
    (df : Table) : Except Err (List (String × CT)) :=
  m.transformers.foldlM (fun acc meta =>
    (resolveSpec df meta).foldlM (fun acc2 cname =>
      match getCol df cname with
      | none => pure acc2
      | some col => do
        let t' ← meta.transformer.fit col
        pure (assignUpsert acc2 cname t')) acc) []

def MultiColumnTransformer.fit (m : MultiColumnTransformer) (df : Table) :
    Except Err MultiColumnTransformer :=
  (m.buildAssignment df).map (fun assignment =>
    { m with col_to_transformer := assignment, is_fitted := true })

/-- The not-fitted error raised by `MultiColumnTransformer.transform`
(test_transform_without_fit_raises: RuntimeError matching "must be fitted"). -/
def notFittedMCT : Err :=
  .runtimeError "MultiColumnTransformer must be fitted before calling transform."

/-- Modelled from the spec: `MultiColumnTransformer.transform` raises the
not-fitted RuntimeError when unfitted; otherwise every assigned column is
replaced in place by its transformer's transform output and every other
column passes through unchanged. -/
def MultiColumnTransformer.transform (m : MultiColumnTransformer) (df : Table) :
    Except Err Table :=
  if m.is_fitted = false then .error notFittedMCT
  else
    df.mapM (fun col =>
      match m.col_to_transformer.lookup col.name with
      | none => .ok col
      | some t => t.transform col)

/-- State-passing fit_transform on the same table. -/
def MultiColumnTransformer.fitTransformS (m : MultiColumnTransformer) (df : Table) :
    Except Err (MultiColumnTransformer × Table) := do
  let m' ← m.fit df
  let out ← m'.transform df
  pure (m', out)

/-- Modelled from the spec: `MultiColumnTransformer.fit_transform`. -/
def MultiColumnTransformer.fitTransform (m : MultiColumnTransformer) (df : Table) :
    Except Err Table :=
  (m.fitTransformS df).map Prod.snd

/-- A table in one of the two evaluation modes: eager (DataFrame) or lazy
(LazyFrame, represented by the table its plan denotes). -/
inductive Frame where
  | eager (t : Table)
  | lazy (t : Table)
deriving DecidableEq, Repr

/-- LazyFrame.collect / the identity on an eager frame. -/
def Frame.collect : Frame → Table
  | .eager t => t
  | .lazy t => t

def Frame.isLazy : Frame → Bool
  | .eager _ => false
  | .lazy _ => true

/-- Modelled from the spec: fit_transform over either evaluation mode,
returning the mode it was given. -/
def MultiColumnTransformer.fitTransformF (m : MultiColumnTransformer) (f : Frame) :
    Except Err Frame :=
  match f with
  | .eager t => (m.fitTransform t).map Frame.eager
  | .lazy t => (m.fitTransform t).map Frame.lazy

/-- pipeline.py `Pipeline`: an ordered list of multi-column steps. -/
structure Pipeline where
  steps : List MultiColumnTransformer
deriving DecidableEq, Repr

/-- The threading loop of `Pipeline.fit`: fit_transform each step in order,
feeding each step's output table to the next; the fitted steps replace the
originals (Python fits them by in-place mutation). -/
def fitStepsAux : List MultiColumnTransformer → Table →
    Except Err (List MultiColumnTransformer × Table)
  | [], df => .ok ([], df)
  | s :: rest, df => do
    let (s', df') ← s.fitTransformS df
    let (rest', dfF) ← fitStepsAux rest df'
    pure (s' :: rest', dfF)

/-- `Pipeline.fit`: thread fit_transform through the steps, discard the
final table and return self. -/
def Pipeline.fit (p : Pipeline) (df : Table) : Except Err Pipeline :=
  (fitStepsAux p.steps df).map (fun r => ⟨r.1⟩)

/-- `Pipeline.transform`: thread transform (not fit_transform) through the
steps. -/
def Pipeline.transform (p : Pipeline) (df : Table) : Except Err Table :=
  p.steps.foldlM (fun d s => s.transform d) df

/-- `Pipeline.fit_transform` via the base-class composition (fit, then
transform on the same table). -/
def Pipeline.fitTransform (p : Pipeline) (df : Table) : Except Err Table := do
  let p' ← p.fit df
  p'.transform df

/-! Helper lemmas: the embedded per-column operations preserve list length,
and each leaf transform preserves the column name; the output dtype is the
input dtype except for LagTransformer's fill_null promotion. -/

theorem length_fillNullConst (v : Val) (xs : List (Option Val)) :
    (fillNullConst v xs).length = xs.length := by
  simp [fillNullConst]

theorem length_fillForwardAux (carry : Option Val) (xs : List (Option Val)) :
    (fillForwardAux carry xs).length = xs.length := by
  induction xs generalizing carry with
  | nil => rfl
  | cons o rest ih =>
    cases o <;> simp [fillForwardAux, ih]

theorem length_fillForward (xs : List (Option Val)) :
    (fillForward xs).length = xs.length := by
  simp [fillForward, length_fillForwardAux]

theorem length_fillBackward (xs : List (Option Val)) :
    (fillBackward xs).length = xs.length := by
  simp [fillBackward, length_fillForwardAux]

theorem length_shiftList (n : Int) (xs : List (Option Val)) :
    (shiftList n xs).length = xs.length := by
  unfold shiftList
  split
  · simp
  · simp
    omega

theorem length_diffList (p : Nat) (xs : List (Option Val)) :
    (diffList p xs).length = xs.length := by
  simp [diffList, length_shiftList]

theorem length_diffN (o p : Nat) (xs : List (Option Val)) :
    (diffN o p xs).length = xs.length := by
  induction o generalizing xs with
  | zero => rfl
  | succ o ih => simp [diffN, ih, length_diffList]

theorem length_interpLinear (xs : List (Option Val)) :
    (interpLinear xs).length = xs.length := by
  simp [interpLinear]

theorem length_rollingApply (st : RollingStrategy) (w m : Nat) (c : Bool)
    (xs : List (Option Val)) : (rollingApply st w m c xs).length = xs.length := by
  simp [rollingApply]

theorem rollingImputer_shape (ri : RollingImputer) (s : Col) :
    (ri.transform s).name = s.name ∧ (ri.transform s).dtype = s.dtype ∧
      (ri.transform s).values.length = s.values.length := by
  refine ⟨rfl, rfl, ?_⟩
  simp [RollingImputer.transform, length_fillNullConst, length_fillForward,
    length_interpLinear, length_rollingApply]

/-- The output dtype of each leaf transform as a function of the input
dtype: identity except for LagTransformer with a non-null fill_value. -/
def ctOutDtype : CT → DType → DType
  | .lag lt, d => if lt.fill_value.isSome then promoteFloat d else d
  | _, d => d

theorem imputer_shape {im : Imputer} {s c' : Col}
    (h : im.transform s = .ok c') :
    c'.name = s.name ∧ c'.dtype = s.dtype ∧ c'.values.length = s.values.length := by
  unfold Imputer.transform at h
  split at h
  · cases h
    simp [length_fillNullConst]
  · split at h
    · cases h
      simp [length_fillForward]
    · split at h
      · cases h
        simp [length_fillBackward]
      · split at h
        · cases h
        · cases h
          simp [length_fillNullConst]

theorem minMaxScaler_shape {sc : MinMaxScaler} {s c' : Col}
    (h : sc.transform s = .ok c') :
    c'.name = s.name ∧ c'.dtype = s.dtype ∧ c'.values.length = s.values.length := by
  unfold MinMaxScaler.transform at h
  split at h
  · cases h
  · split at h
    · cases h
      simp
    · cases h

theorem lagTransformer_shape {lt : LagTransformer} {s c' : Col}
    (h : lt.transform s = .ok c') :
    c'.name = s.name ∧
      c'.dtype = (if lt.fill_value.isSome then promoteFloat s.dtype else s.dtype) ∧
      c'.values.length = s.values.length := by
  unfold LagTransformer.transform at h
  split at h
  · cases h
  · split at h
    · cases h
    · split at h
      case _ heq =>
        cases h
        simp [heq, length_shiftList]
      case _ fv heq =>
        cases h
        simp [heq, length_fillNullConst, length_shiftList]

theorem diffTransformer_shape {dt : DiffTransformer} {s c' : Col}
    (h : dt.transform s = .ok c') :
    c'.name = s.name ∧ c'.dtype = s.dtype ∧ c'.values.length = s.values.length := by
  unfold DiffTransformer.transform at h
  split at h
  · cases h
  · cases h
    simp [length_diffN]

/-- Master shape lemma for the single-column contract: transform preserves
name and length, and the dtype follows ctOutDtype. -/
theorem ct_shape {t : CT} {s c' : Col} (h : t.transform s = .ok c') :
    c'.name = s.name ∧ c'.dtype = ctOutDtype t s.dtype ∧
      c'.values.length = s.values.length := by
  cases t with
  | imputer im => exact imputer_shape h
  | rollingImputer ri =>
    cases h
    exact rollingImputer_shape ri s
  | minmax sc => exact minMaxScaler_shape h
  | lag lt => exact lagTransformer_shape h
  | diffT dt => exact diffTransformer_shape h

/-- Success of mapM over Except determines the output pointwise. -/
theorem mapM_ok_pointwise {α β : Type} {f : α → Except Err β} {l : List α} :
    ∀ {l' : List β}, l.mapM f = .ok l' →
      l'.length = l.length ∧
        ∀ (i : Nat) (a : α), l[i]? = some a →
          ∃ b, f a = .ok b ∧ l'[i]? = some b := by
  induction l with
  | nil =>
    intro l' h
    rw [List.mapM_nil] at h
    cases h
    refine ⟨rfl, ?_⟩
    intro i a ha
    simp at ha
  | cons a as ih =>
    intro l' h
    rw [List.mapM_cons] at h
    cases hfa : f a with
    | error e =>
      rw [hfa] at h
      simp [Bind.bind, Except.bind] at h
    | ok b =>
      rw [hfa] at h
      cases hrest : as.mapM f with
      | error e =>
        rw [hrest] at h
        simp [Bind.bind, Except.bind] at h
      | ok bs =>
        rw [hrest] at h
        simp [Bind.bind, Except.bind, pure, Except.pure] at h
        subst h
        obtain ⟨hlen, hpt⟩ := ih hrest
        refine ⟨by simp [hlen], ?_⟩
        intro i x hx
        cases i with
        | zero =>
          simp at hx
          subst hx
          exact ⟨b, hfa, by simp⟩
        | succ j =>
          simp at hx
          obtain ⟨y, hy, hl⟩ := hpt j x hx
          exact ⟨y, hy, by simpa using hl⟩

/-- C1: a fitted MultiColumnTransformer's transform rewrites assigned
columns in place through their transformers, passes unassigned columns
through unchanged, and preserves the column names, the column order and
every column's row count. -/
theorem mct_transform_frame_invariants (M : MultiColumnTransformer)
    (t t' : Table) (h : M.transform t = .ok t') :
    colNames t' = colNames t ∧
    t'.map (fun c => c.values.length) = t.map (fun c => c.values.length) ∧
    (∀ (i : Nat) (c : Col), t[i]? = some c →
      M.col_to_transformer.lookup c.name = none → t'[i]? = some c) ∧
    (∀ (i : Nat) (c : Col) (tr : CT), t[i]? = some c →
      M.col_to_transformer.lookup c.name = some tr →
      ∃ c', tr.transform c = .ok c' ∧ t'[i]? = some c') := by
  unfold MultiColumnTransformer.transform at h
  split at h
  · cases h
  · obtain ⟨hlen, hpt⟩ := mapM_ok_pointwise h
    have hshape : ∀ (c b : Col),
        (match M.col_to_transformer.lookup c.name with
          | none => Except.ok c
          | some tr => tr.transform c) = .ok b →
        b.name = c.name ∧ b.values.length = c.values.length := by
      intro c b hb
      cases hlk : M.col_to_transformer.lookup c.name with
      | none =>
        rw [hlk] at hb
        cases hb
        exact ⟨rfl, rfl⟩
      | some tr =>
        rw [hlk] at hb
        obtain ⟨h1, _, h3⟩ := ct_shape hb
        exact ⟨h1, h3⟩
    have hpoint : ∀ (i : Nat), ∃ po,
        t[i]? = po ∧ ((po = none ∧ t'[i]? = none) ∨
          ∃ c b, po = some c ∧ t'[i]? = some b ∧
            b.name = c.name ∧ b.values.length = c.values.length) := by
      intro i
      cases ht : t[i]? with
      | none =>
        refine ⟨none, rfl, Or.inl ⟨rfl, ?_⟩⟩
        have hle : t.length ≤ i := List.getElem?_eq_none_iff.mp ht
        exact List.getElem?_eq_none (by omega)
      | some c =>
        obtain ⟨b, hb, hb'⟩ := hpt i c ht
        obtain ⟨h1, h2⟩ := hshape c b hb
        exact ⟨some c, rfl, Or.inr ⟨c, b, rfl, hb', h1, h2⟩⟩
    refine ⟨?_, ?_, ?_, ?_⟩
    · apply List.ext_getElem?
      intro i
      obtain ⟨po, hpo, hcase⟩ := hpoint i
      rcases hcase with ⟨hn, hn'⟩ | ⟨c, b, hc, hb', h1, _⟩
      · subst hn
        simp [colNames, hpo, hn']
      · subst hc
        simp [colNames, hpo, hb', h1]
    · apply List.ext_getElem?
      intro i
      obtain ⟨po, hpo, hcase⟩ := hpoint i
      rcases hcase with ⟨hn, hn'⟩ | ⟨c, b, hc, hb', _, h2⟩
      · subst hn
        simp [hpo, hn']
      · subst hc
        simp [hpo, hb', h2]
    · intro i c hc hlk
      obtain ⟨b, hb, hb'⟩ := hpt i c hc
      rw [hlk] at hb
      cases hb
      exact hb'
    · intro i c tr hc hlk
      obtain ⟨b, hb, hb'⟩ := hpt i c hc
      rw [hlk] at hb
      exact ⟨b, hb, hb'⟩

/-! Concrete example data used by witnesses and counterexamples. -/

/-- A mean-strategy Imputer with its statistic already fitted. -/
def exImpMean : Imputer := { strategy := some .mean, value := none, fitted_value := some 2 }

/-- An unfitted mean-strategy Imputer. -/
def exImpMeanFresh : Imputer := { strategy := some .mean, value := none, fitted_value := none }

def exMetaA : ColumnTransformerMetadata :=
  { name := "imputer", columns := [.byName "col_a"], transformer := .imputer exImpMeanFresh }

/-- A fitted MultiColumnTransformer assigning the fitted Imputer to col_a. -/
def exMctFitted : MultiColumnTransformer :=
  { transformers := [exMetaA], col_to_transformer := [("col_a", .imputer exImpMean)],
    is_fitted := true }

def exTableA : Table :=
  [⟨"col_a", .float64, [some 1, none, some 3]⟩,
   ⟨"col_b", .float64, [some 4, some 5, some 6]⟩]

def exTableA' : Table :=
  [⟨"col_a", .float64, [some 1, some 2, some 3]⟩,
   ⟨"col_b", .float64, [some 4, some 5, some 6]⟩]

/-- Witness for the C1 theorem at a concrete fitted transformer and table. -/
theorem mct_transform_frame_invariants_witness :
    exMctFitted.transform exTableA = .ok exTableA' ∧
    (colNames exTableA' = colNames exTableA ∧
    exTableA'.map (fun c => c.values.length) = exTableA.map (fun c => c.values.length) ∧
    (∀ (i : Nat) (c : Col), exTableA[i]? = some c →
      exMctFitted.col_to_transformer.lookup c.name = none → exTableA'[i]? = some c) ∧
    (∀ (i : Nat) (c : Col) (tr : CT), exTableA[i]? = some c →
      exMctFitted.col_to_transformer.lookup c.name = some tr →
      ∃ c', tr.transform c = .ok c' ∧ exTableA'[i]? = some c')) :=
  ⟨by rfl, mct_transform_frame_invariants exMctFitted exTableA exTableA' (by rfl)⟩

/-- C2: fit_transform is the composition of fit followed by transform on
the same column, for every embedded single-column transformer. -/
theorem ct_fitTransform_eq_fit_then_transform (T : CT) (c : Col) :
    T.fitTransform c = (T.fit c).bind (fun T' => T'.transform c) := by
  unfold CT.fitTransform CT.fitTransformS
  cases hf : T.fit c with
  | error e => simp [hf, Except.bind, Bind.bind, Except.map]
  | ok T' =>
    cases ht : T'.transform c with
    | error e => simp [hf, ht, Except.bind, Bind.bind, Except.map, pure, Except.pure]
    | ok out => simp [hf, ht, Except.bind, Bind.bind, Except.map, pure, Except.pure]

def exTableB : Table := [⟨"col_a", .float64, [some 1, none]⟩]

/-- C3 counterexample: a freshly constructed Pipeline with an empty steps
list transforms successfully, returning its input table unchanged, so a
fresh Pipeline's transform does not always fail with a not-fitted error. -/
theorem pipeline_empty_transform_ok :
    Pipeline.transform ⟨[]⟩ exTableB = .ok exTableB := rfl

/-- C3 (amended): transform on a freshly constructed (never fitted)
MultiColumnTransformer fails with the not-fitted RuntimeError for every
input table, and a Pipeline whose first step is such a fresh transformer
propagates that error from the first step. -/
theorem fresh_transform_not_fitted (specs : List ColumnTransformerMetadata)
    (m : MultiColumnTransformer) (t : Table)
    (rest : List MultiColumnTransformer)
    (h : MultiColumnTransformer.init specs = .ok m) :
    m.transform t = .error notFittedMCT ∧
      Pipeline.transform ⟨m :: rest⟩ t = .error notFittedMCT := by
  have hm : m.is_fitted = false := by
    unfold MultiColumnTransformer.init at h
    split at h
    · cases h
    · cases h
      rfl
  have h1 : m.transform t = .error notFittedMCT := by
    unfold MultiColumnTransformer.transform
    simp [hm]
  refine ⟨h1, ?_⟩
  unfold Pipeline.transform
  rw [List.foldlM_cons, h1]
  rfl

/-- The concrete fresh MultiColumnTransformer built from exMetaA. -/
def exFreshMct : MultiColumnTransformer :=
  { transformers := [exMetaA], col_to_transformer := [], is_fitted := false }

/-- Witness for the amended C3 theorem at a concrete spec list and table. -/
theorem fresh_transform_not_fitted_witness :
    MultiColumnTransformer.init [exMetaA] = .ok exFreshMct ∧
      (exFreshMct.transform exTableB = .error notFittedMCT ∧
        Pipeline.transform ⟨exFreshMct :: []⟩ exTableB = .error notFittedMCT) :=
  ⟨by rfl, fresh_transform_not_fitted [exMetaA] exFreshMct exTableB [] (by rfl)⟩

def exIntCol : Col := ⟨"a", .int64, [some 1, some 2]⟩

def exLagFill : LagTransformer := LagTransformer.init [1] (some (1 / 2))

/-- C4 counterexample: LagTransformer with a (Python float) fill_value
returns a Float64 column for an Int64 input, because fill_null resolves
the supertype of Int64 and the float literal; dtype is not preserved. -/
theorem lag_fill_changes_dtype :
    exLagFill.transform exIntCol = .ok ⟨"a", .float64, [some (1 / 2), some 1]⟩ ∧
      DType.float64 ≠ exIntCol.dtype := ⟨by rfl, by decide⟩

/-- C4 (amended): every embedded single-column transform preserves the
input column's name, and preserves its declared dtype except LagTransformer
with a non-null fill_value, whose fill_null promotes Int64 to Float64. -/
theorem ct_transform_name_dtype (T : CT) (c c' : Col)
    (h : T.transform c = .ok c') :
    c'.name = c.name ∧ c'.dtype = ctOutDtype T c.dtype := by
  obtain ⟨h1, h2, _⟩ := ct_shape h
  exact ⟨h1, h2⟩

def exColD : Col := ⟨"col_a", .float64, [some 1, none]⟩

def exColD' : Col := ⟨"col_a", .float64, [some 1, some 2]⟩

/-- Witness for the amended C4 theorem at a concrete fitted Imputer. -/
theorem ct_transform_name_dtype_witness :
    CT.transform (.imputer exImpMean) exColD = .ok exColD' ∧
      (exColD'.name = exColD.name ∧
        exColD'.dtype = ctOutDtype (.imputer exImpMean) exColD.dtype) :=
  ⟨by rfl, ct_transform_name_dtype (.imputer exImpMean) exColD exColD' (by rfl)⟩

def allNullColB : Col := ⟨"a", .float64, [none, none]⟩

/-- Whether an error value belongs to the ValueError class. -/
def Err.isValueError : Err → Bool
  | .valueError _ => true
  | _ => false

/-- C6 counterexample: on an all-null column, fit of a mean-strategy
Imputer raises nothing (it returns successfully with no statistic
recorded), and MinMaxScaler.fit raises a RuntimeError, which is not a
ValueError-class error. -/
theorem all_null_fit_not_valueerror :
    Imputer.fit exImpMeanFresh allNullColB = .ok exImpMeanFresh ∧
      MinMaxScaler.fit MinMaxScaler.init allNullColB =
        .error (.runtimeError
          "MinMaxScaler could not be fitted due to None min or max values.") ∧
      Err.isValueError (.runtimeError
        "MinMaxScaler could not be fitted due to None min or max values.") = false :=
  ⟨by rfl, by rfl, by rfl⟩

/-- C6 (amended): on an all-null column, MinMaxScaler.fit does raise and
propagate an error to fit's caller, but a RuntimeError rather than a
ValueError-class error; the mean-strategy Imputer's fit succeeds while
recording no statistic, and its ValueError-class domain error is raised
(and propagated) only when transform is later called on the
still-parameterless imputer. -/
theorem all_null_fit_error_paths (name : String) (d : DType)
    (xs : List (Option Val)) (h : ∀ o ∈ xs, o = none) (s : Col) :
    MinMaxScaler.fit MinMaxScaler.init ⟨name, d, xs⟩ =
      .error (.runtimeError
        "MinMaxScaler could not be fitted due to None min or max values.") ∧
      Imputer.fit exImpMeanFresh ⟨name, d, xs⟩ = .ok exImpMeanFresh ∧
      Imputer.transform exImpMeanFresh s =
        .error (.valueError "Imputer has not been fit yet.") := by
  have hnil : xs.filterMap id = [] := by
    rw [List.filterMap_eq_nil_iff]
    intro a ha
    exact h a ha
  have hmean : colMean xs = none := by
    simp [colMean, hnil]
  have hmin : colMin xs = none := by
    simp [colMin, hnil]
  have hmax : colMax xs = none := by
    simp [colMax, hnil]
  refine ⟨?_, ?_, by rfl⟩
  · simp [MinMaxScaler.fit, hmin, hmax]
  · simp [Imputer.fit, exImpMeanFresh, hmean]

/-- Witness for the amended C6 theorem at a concrete all-null column. -/
theorem all_null_fit_error_paths_witness :
    (∀ o ∈ allNullColB.values, o = none) ∧
      (MinMaxScaler.fit MinMaxScaler.init ⟨"a", .float64, allNullColB.values⟩ =
        .error (.runtimeError
          "MinMaxScaler could not be fitted due to None min or max values.") ∧
        Imputer.fit exImpMeanFresh ⟨"a", .float64, allNullColB.values⟩ = .ok exImpMeanFresh ∧
        Imputer.transform exImpMeanFresh exColD =
          .error (.valueError "Imputer has not been fit yet.")) :=
  ⟨by simp [allNullColB],
    all_null_fit_error_paths "a" .float64 allNullColB.values
      (by simp [allNullColB]) exColD⟩

/-- A successful MultiColumnTransformer.fit marks the result fitted. -/
theorem MultiColumnTransformer.fit_fitted {m m' : MultiColumnTransformer}
    {t : Table} (h : m.fit t = .ok m') : m'.is_fitted = true := by
  unfold MultiColumnTransformer.fit at h
  cases hb : m.buildAssignment t with
  | error e =>
    rw [hb] at h
    simp [Except.map] at h
  | ok a =>
    rw [hb] at h
    simp [Except.map] at h
    rw [← h]

/-- A successful fit_transform leaves the step fitted. -/
theorem MultiColumnTransformer.fitTransformS_fitted
    {m m' : MultiColumnTransformer} {t t' : Table}
    (h : m.fitTransformS t = .ok (m', t')) : m'.is_fitted = true := by
  unfold MultiColumnTransformer.fitTransformS at h
  cases hf : m.fit t with
  | error e =>
    rw [hf] at h
    simp [Bind.bind, Except.bind] at h
  | ok mf =>
    rw [hf] at h
    simp only [Bind.bind, Except.bind] at h
    cases htr : mf.transform t with
    | error e =>
      rw [htr] at h
      simp at h
    | ok out =>
      rw [htr] at h
      simp [pure, Except.pure] at h
      obtain ⟨h1, _⟩ := h
      rw [← h1]
      exact MultiColumnTransformer.fit_fitted hf

/-- Unfolding equation for fitStepsAux on a non-empty step list. -/
theorem fitStepsAux_cons (s : MultiColumnTransformer)
    (rest : List MultiColumnTransformer) (t : Table) :
    fitStepsAux (s :: rest) t =
      match s.fitTransformS t with
      | .error e => .error e
      | .ok (s', t') =>
        match fitStepsAux rest t' with
        | .error e => .error e
        | .ok (rest', dfF) => .ok (s' :: rest', dfF) := by
  conv_lhs => rw [fitStepsAux]
  cases hft : s.fitTransformS t with
  | error e => simp [Bind.bind, Except.bind]
  | ok pr =>
    obtain ⟨s', t'⟩ := pr
    simp only [Bind.bind, Except.bind]
    cases hrec : fitStepsAux rest t' with
    | error e => simp
    | ok pr2 =>
      obtain ⟨rest', dfF⟩ := pr2
      simp [pure, Except.pure]

/-- A successful fitStepsAux returns one fitted step per input step. -/
theorem fitStepsAux_all_fitted :
    ∀ (l : List MultiColumnTransformer) (t : Table)
      (l' : List MultiColumnTransformer) (t' : Table),
      fitStepsAux l t = .ok (l', t') →
      l'.length = l.length ∧ l'.all (fun m => m.is_fitted) = true := by
  intro l
  induction l with
  | nil =>
    intro t l' t' h
    unfold fitStepsAux at h
    cases h
    exact ⟨rfl, rfl⟩
  | cons s rest ih =>
    intro t l' t' h
    rw [fitStepsAux_cons] at h
    cases hft : s.fitTransformS t with
    | error e =>
      rw [hft] at h
      simp at h
    | ok pr =>
      rw [hft] at h
      obtain ⟨s', df'⟩ := pr
      simp only at h
      cases hrec : fitStepsAux rest df' with
      | error e =>
        rw [hrec] at h
        simp at h
      | ok pr2 =>
        rw [hrec] at h
        obtain ⟨rest', dfF⟩ := pr2
        simp at h
        obtain ⟨h1, _⟩ := h
        rw [← h1]
        obtain ⟨hl, ha⟩ := ih df' rest' dfF hrec
        refine ⟨by simp [hl], ?_⟩
        simp [List.all_cons, ha,
          MultiColumnTransformer.fitTransformS_fitted hft]

/-- C7: Pipeline.fit threads each step's fit_transform in list order,
feeding each step's output table to the next step, discards the final
table (it returns the pipeline, not a table), and on success the pipeline
is fitted: every step carries is_fitted. -/
theorem pipeline_fit_spec (p : Pipeline) (t : Table) :
    (Pipeline.fit ⟨[]⟩ t = .ok ⟨[]⟩) ∧
    (∀ (s : MultiColumnTransformer) (rest : List MultiColumnTransformer),
      Pipeline.fit ⟨s :: rest⟩ t =
        match s.fitTransformS t with
        | .error e => .error e
        | .ok (s', t') =>
          match Pipeline.fit ⟨rest⟩ t' with
          | .error e => .error e
          | .ok p' => .ok ⟨s' :: p'.steps⟩) ∧
    (∀ p' : Pipeline, p.fit t = .ok p' →
      p'.steps.length = p.steps.length ∧
        p'.steps.all (fun m => m.is_fitted) = true) := by
  refine ⟨rfl, ?_, ?_⟩
  · intro s rest
    unfold Pipeline.fit
    rw [fitStepsAux_cons]
    cases hft : s.fitTransformS t with
    | error e => simp [hft, Except.map]
    | ok pr =>
      obtain ⟨s', t'⟩ := pr
      simp only [hft]
      cases hrec : fitStepsAux rest t' with
      | error e =>
        simp [hrec, Except.map]
      | ok pr2 =>
        obtain ⟨rest', dfF⟩ := pr2
        simp [hrec, Except.map]
  · intro p' h
    unfold Pipeline.fit at h
    cases hs : fitStepsAux p.steps t with
    | error e =>
      rw [hs] at h
      simp [Except.map] at h
    | ok pr =>
      rw [hs] at h
      obtain ⟨l', t''⟩ := pr
      simp [Except.map] at h
      obtain ⟨hl, ha⟩ := fitStepsAux_all_fitted p.steps t l' t'' hs
      rw [← h]
      exact ⟨hl, ha⟩

/-- A spec binding col_a to a zero-strategy Imputer (no statistic needed,
so fitting it involves no rational arithmetic). -/
def exMetaZ : ColumnTransformerMetadata :=
  { name := "imputer0", columns := [.byName "col_a"],
    transformer := .imputer { strategy := some .zero, value := none, fitted_value := none } }

/-- A fresh MultiColumnTransformer around exMetaZ. -/
def exMctZ : MultiColumnTransformer :=
  { transformers := [exMetaZ], col_to_transformer := [], is_fitted := false }

/-- The result of fitting ⟨[exMctZ]⟩ on exTableB. -/
def exPipeFitted : Pipeline :=
  { steps := [{ transformers := [exMetaZ],
                col_to_transformer :=
                  [("col_a", .imputer
                    { strategy := some .zero, value := none, fitted_value := some 0 })],
                is_fitted := true }] }

/-- Witness for the C7 theorem: fitting a concrete one-step pipeline
succeeds, returns the pipeline, and leaves every step fitted. -/
theorem pipeline_fit_spec_witness :
    Pipeline.fit ⟨[exMctZ]⟩ exTableB = .ok exPipeFitted ∧
      (exPipeFitted.steps.length = (Pipeline.mk [exMctZ]).steps.length ∧
        exPipeFitted.steps.all (fun m => m.is_fitted) = true) :=
  ⟨by rfl, (pipeline_fit_spec ⟨[exMctZ]⟩ exTableB).2.2 exPipeFitted (by rfl)⟩

/-- C5: fit_transform accepts either evaluation mode and returns the mode
it was given, and the eager result and the collected lazy result are the
same table of values. -/
theorem mct_fitTransform_mode_transparent (m : MultiColumnTransformer)
    (t : Table) :
    (m.fitTransformF (.eager t)).map Frame.collect =
      (m.fitTransformF (.lazy t)).map Frame.collect ∧
    (∀ (f f' : Frame), m.fitTransformF f = .ok f' → f'.isLazy = f.isLazy) := by
  constructor
  · unfold MultiColumnTransformer.fitTransformF
    cases h : m.fitTransform t <;> simp [h, Except.map, Frame.collect]
  · intro f f' h
    cases f with
    | eager t0 =>
      simp only [MultiColumnTransformer.fitTransformF] at h
      cases hx : m.fitTransform t0 with
      | error e =>
        rw [hx] at h
        simp [Except.map] at h
      | ok tb =>
        rw [hx] at h
        simp [Except.map] at h
        rw [← h]
        rfl
    | lazy t0 =>
      simp only [MultiColumnTransformer.fitTransformF] at h
      cases hx : m.fitTransform t0 with
      | error e =>
        rw [hx] at h
        simp [Except.map] at h
      | ok tb =>
        rw [hx] at h
        simp [Except.map] at h
        rw [← h]
        rfl

/-- The table exTableA after zero-imputation of col_a. -/
def exTableZ' : Table :=
  [⟨"col_a", .float64, [some 1, some 0, some 3]⟩,
   ⟨"col_b", .float64, [some 4, some 5, some 6]⟩]

/-- Witness for the C5 theorem: the mode-preservation clause at a concrete
lazy frame. -/
theorem mct_fitTransform_mode_transparent_witness :
    exMctZ.fitTransformF (.lazy exTableA) = .ok (.lazy exTableZ') ∧
      Frame.isLazy (.lazy exTableZ') = Frame.isLazy (.lazy exTableA) :=
  ⟨by rfl,
    (mct_fitTransform_mode_transparent exMctZ exTableA).2
      (.lazy exTableA) (.lazy exTableZ') (by rfl)⟩

/-- After filling nulls with a constant and mapping, no entry is null. -/
theorem nullCount_fill_map_zero (f : Val → Val) (v : Val)
    (ys : List (Option Val)) :
    nullCount ((fillNullConst v ys).map (Option.map f)) = 0 := by
  induction ys with
  | nil => rfl
  | cons o rest ih =>
    simp [fillNullConst, nullCount, List.filter]

/-- C8: RollingImputer.transform returns a column with zero nulls for every
input series: coalescing, interpolation and forward-fill are followed by an
unconditional fill_null(0). -/
theorem rolling_imputer_no_nulls (ri : RollingImputer) (s : Col) :
    nullCount (ri.transform s).values = 0 := by
  unfold RollingImputer.transform
  exact nullCount_fill_map_zero _ _ _

/-- Recognizer for the not-fitted ValueError of LagTransformer.transform. -/
def isLagNotFittedError : Except Err Col → Bool
  | .error (.valueError msg) => msg == "LagTransformer has not been fitted yet."
  | _ => false

/-- C9: every LagTransformer built by the constructor is already fitted
(is_fitted is set to True in the constructor), so its transform never
returns the not-fitted error, for any lags, fill_value and input series. -/
theorem lag_init_fitted_no_unfitted_error (lags : List Int) (fv : Option Val)
    (s : Col) :
    (LagTransformer.init lags fv).is_fitted = true ∧
      isLagNotFittedError ((LagTransformer.init lags fv).transform s) = false := by
  refine ⟨rfl, ?_⟩
  unfold LagTransformer.transform LagTransformer.init
  cases lags with
  | nil => rfl
  | cons lag rest =>
    cases fv with
    | none => rfl
    | some v => rfl

def sc55 : MinMaxScaler := { min := some 5, max := some 5, is_fitted := true }

def constCol5 : Col := ⟨"c", .float64, [some 5, some 5]⟩

def exCol6 : Col := ⟨"a", .float64, [some 6]⟩

/-- C10 counterexample: a MinMaxScaler fitted on the constant column [5, 5]
maps the input entry 6 to 1e8, not 0, so a constant fit does not send
every non-null entry of every input series to 0. -/
theorem minmax_const_nonzero_output :
    MinMaxScaler.fit MinMaxScaler.init constCol5 = .ok sc55 ∧
      sc55.transform exCol6 = .ok ⟨"a", .float64, [some 100000000]⟩ ∧
      (100000000 : Val) ≠ 0 := by
  refine ⟨by rfl, ?_, by norm_num⟩
  unfold MinMaxScaler.transform sc55 exCol6
  simp [castVal, eps]
  norm_num

theorem foldl_min_le_init (v : Val) (l : List Val) : l.foldl min v ≤ v := by
  induction l generalizing v with
  | nil => exact le_refl v
  | cons a l ih => exact le_trans (ih (min v a)) (min_le_left v a)

theorem le_foldl_max_init (v : Val) (l : List Val) : v ≤ l.foldl max v := by
  induction l generalizing v with
  | nil => exact le_refl v
  | cons a l ih => exact le_trans (le_max_left v a) (ih (max v a))

/-- The fitted min never exceeds the fitted max. -/
theorem colMin_le_colMax {xs : List (Option Val)} {mn mx : Val}
    (h1 : colMin xs = some mn) (h2 : colMax xs = some mx) : mn ≤ mx := by
  unfold colMin at h1
  unfold colMax at h2
  cases hf : xs.filterMap id with
  | nil => rw [hf] at h1; cases h1
  | cons v vs =>
    rw [hf] at h1 h2
    cases h1
    cases h2
    exact le_trans (foldl_min_le_init v vs) (le_foldl_max_init v vs)

theorem castVal_zero (d : DType) : castVal d 0 = 0 := by
  cases d <;> simp [castVal, truncQ]

/-- C10 (amended): the transform denominator max - min + 1e-8 of a fitted
MinMaxScaler is always positive (no division by zero); fitting on a
constant column stores min = max and transform then succeeds on every
input series, sending each null entry to null and each entry equal to the
fitted constant to 0 (the general entry v maps to (v - min)/1e-8, which is
nonzero for v different from the constant). -/
theorem minmax_const_fit_transform (c s : Col) (m : Val)
    (h1 : colMin c.values = some m) (h2 : colMax c.values = some m) :
    MinMaxScaler.fit MinMaxScaler.init c = .ok ⟨some m, some m, true⟩ ∧
    MinMaxScaler.transform ⟨some m, some m, true⟩ s =
      .ok ⟨s.name, s.dtype,
        s.values.map (fun o => o.map
          (fun v => castVal s.dtype ((v - m) / (m - m + eps))))⟩ ∧
    0 < m - m + eps ∧
    (∀ v : Val, v = m → castVal s.dtype ((v - m) / (m - m + eps)) = 0) ∧
    (∀ (c' : Col) (mn mx : Val), colMin c'.values = some mn →
      colMax c'.values = some mx → 0 < mx - mn + eps) ∧
    (∀ i : Nat, s.values[i]? = some none →
      (s.values.map (fun o => o.map
        (fun v => castVal s.dtype ((v - m) / (m - m + eps)))))[i]? = some none) := by
  have heps : (0 : Val) < eps := by
    unfold eps
    norm_num
  refine ⟨?_, by rfl, by simpa using heps, ?_, ?_, ?_⟩
  · unfold MinMaxScaler.fit
    rw [h1, h2]
    simp
  · intro v hv
    subst hv
    simp [castVal_zero]
  · intro c' mn mx hmn hmx
    have := colMin_le_colMax hmn hmx
    linarith
  · intro i hi
    simp [hi]

def constColW : Col := ⟨"w", .float64, [some 5, none, some 5]⟩

/-- Witness for the amended C10 theorem at a concrete constant column. -/
theorem minmax_const_fit_transform_witness :
    (colMin constColW.values = some 5 ∧ colMax constColW.values = some 5) ∧
      (MinMaxScaler.fit MinMaxScaler.init constColW = .ok ⟨some 5, some 5, true⟩ ∧
      MinMaxScaler.transform ⟨some 5, some 5, true⟩ constColW =
        .ok ⟨constColW.name, constColW.dtype,
          constColW.values.map (fun o => o.map
            (fun v => castVal constColW.dtype ((v - 5) / (5 - 5 + eps))))⟩ ∧
      0 < 5 - 5 + eps ∧
      (∀ v : Val, v = 5 →
        castVal constColW.dtype ((v - 5) / (5 - 5 + eps)) = 0) ∧
      (∀ (c' : Col) (mn mx : Val), colMin c'.values = some mn →
        colMax c'.values = some mx → 0 < mx - mn + eps) ∧
      (∀ i : Nat, constColW.values[i]? = some none →
        (constColW.values.map (fun o => o.map
          (fun v => castVal constColW.dtype ((v - 5) / (5 - 5 + eps)))))[i]? =
            some none)) :=
  ⟨⟨by rfl, by rfl⟩,
    minmax_const_fit_transform constColW constColW 5 (by rfl) (by rfl)⟩

end PolarsTS
